import Mathlib

/-!
Verification of the Wayland idle-detector core (`src/pkg/idle/wayland_idle.c`).

The C file keeps five global pointers (`display`, `registry`, `idle_notifier`,
`seat`, `notification`) and exposes `wayland_cgo_init`, `wayland_cgo_register_timeout`,
`wayland_cgo_dispatch`, `wayland_cgo_get_fd` and `wayland_cgo_cleanup`.  We embed the
globals as a record of `Option Nat` handles (`none` models a NULL pointer) and each API
function as a pure function from that record (plus the outcome of each call into the
vendored libwayland codec, passed in explicitly) to a result code, the new record, and a
trace of the codec calls the function performed.
-/

namespace SyscWalls

/-- The five C global pointers of `wayland_idle.c`; `none` is NULL. -/
structure CState where
  display : Option Nat
  registry : Option Nat
  idle_notifier : Option Nat
  seat : Option Nat
  notification : Option Nat
deriving DecidableEq, Repr

/-- The all-NULL initial state of the C globals. -/
def CState.initial : CState :=
  ⟨none, none, none, none, none⟩

/-- One call into the vendored libwayland codec, as recorded in a trace. -/
inductive Eff where
  | connect (h : Nat)
  | getRegistry (h : Nat)
  | addListener
  | bindGlobal (name h : Nat)
  | roundtrip
  | newNotification (ms : Nat) (res : Option Nat)
  | destroy (h : Nat)
  | disconnect (h : Nat)
  | getFd (h : Nat)
  | prepareRead
  | readEvents
  | cancelRead
  | dispatchPending
deriving DecidableEq, Repr

/-- A global advertised by the compositor's registry. -/
structure Global where
  name : Nat
  interface : String
  version : Nat
deriving DecidableEq, Repr

/-- Interface-name constant `ext_idle_notifier_v1_interface.name` from the vendored
protocol codec. -/
def ext_idle_notifier_v1_interface_name : String := "ext_idle_notifier_v1"

/-- Embeds `registry_handle_global`: bind an advertised `ext_idle_notifier_v1` (always), or the
first advertised `wl_seat` (only when `seat` is still NULL).  `wl_registry_bind` is
modelled by the total function `bind` from global name to proxy handle: the source never
checks the result of a bind, and the codec contract is that binding returns a proxy. -/
def registry_handle_global (bind : Nat → Nat) (s : CState) (g : Global) :
    CState × List Eff :=
  if g.interface = ext_idle_notifier_v1_interface_name then
    ({ s with idle_notifier := some (bind g.name) }, [Eff.bindGlobal g.name (bind g.name)])
  else if g.interface = "wl_seat" ∧ s.seat = none then
    ({ s with seat := some (bind g.name) }, [Eff.bindGlobal g.name (bind g.name)])
  else (s, [])

/-- Deliver the registry's initial burst of globals to `registry_handle_global`, one at a
time, in order (this happens inside the first `wl_display_roundtrip` of `init`). -/
def processGlobals (bind : Nat → Nat) (s : CState) : List Global → CState × List Eff
  | [] => (s, [])
  | g :: gs =>
    let r := registry_handle_global bind s g
    let rest := processGlobals bind r.1 gs
    (rest.1, r.2 ++ rest.2)

/-- The codec outcomes one run of `wayland_cgo_init` can observe: the result of
`wl_display_connect` (NULL = `none`), of `wl_display_get_registry`, the globals the
compositor advertises during the roundtrips, and the proxies `wl_registry_bind` hands
out. -/
structure InitEnv where
  connectRes : Option Nat
  getRegistryRes : Option Nat
  globals : List Global
  bind : Nat → Nat

/-- Embeds `wayland_cgo_init`, line for line from the source.  Note two faithful quirks of the C
code: on the `-1` path the `display` global is assigned the NULL result of
`wl_display_connect`, but on the `-2`/`-3`/`-4` paths `wl_display_disconnect` is called
without clearing the `display` (or `registry`, `idle_notifier`, `seat`) pointers. -/
def wayland_cgo_init (env : InitEnv) (s : CState) : Int × CState × List Eff :=
  match env.connectRes with
  | none => (-1, { s with display := none }, [])
  | some d =>
    let s1 := { s with display := some d }
    match env.getRegistryRes with
    | none => (-2, s1, [Eff.connect d, Eff.disconnect d])
    | some r =>
      let s2 := { s with display := some d, registry := some r }
      let pg := processGlobals env.bind s2 env.globals
      let tr := [Eff.connect d, Eff.getRegistry r, Eff.addListener] ++ pg.2 ++
        [Eff.roundtrip, Eff.roundtrip]
      if pg.1.idle_notifier = none then
        (-3, pg.1, tr ++ [Eff.disconnect d])
      else if pg.1.seat = none then
        (-4, pg.1, tr ++ [Eff.disconnect d])
      else
        (0, pg.1, tr)

/-- Embeds `wayland_cgo_register_timeout`.  `factoryRes` is what the
`ext_idle_notifier_v1_get_idle_notification` factory would return on this call (`none` =
NULL).  The source assigns the factory result to `notification` before the NULL check and
never destroys a previously stored notification. -/
def wayland_cgo_register_timeout (factoryRes : Option Nat) (timeout_ms : Nat)
    (s : CState) : Int × CState × List Eff :=
  if s.idle_notifier = none ∨ s.seat = none then
    (-1, s, [])
  else
    match factoryRes with
    | none => (-2, { s with notification := none }, [Eff.newNotification timeout_ms none])
    | some n =>
      (0, { s with notification := some n },
        [Eff.newNotification timeout_ms (some n), Eff.addListener, Eff.roundtrip])

/-- Codec outcomes one run of `wayland_cgo_dispatch` can observe: the successive results
of `wl_display_prepare_read` (`true` = returned 0), the successive results of the
`wl_display_dispatch_pending` calls inside the prepare loop, the result of
`wl_display_read_events`, and the result of the final `wl_display_dispatch_pending`. -/
structure DispatchEnv where
  prepareResults : List Bool
  pendingResults : List Int
  readResult : Int
  finalPendingResult : Int

/-- The `while (wl_display_prepare_read(display) != 0)` loop of `wayland_cgo_dispatch`.
Returns `none` when the supplied oracle lists run out before the loop exits (the run is
then not determined by the oracle); otherwise `some (exitOk, trace)` where `exitOk` is
`true` when the loop exited because `prepare_read` succeeded and `false` when a
`dispatch_pending` inside the loop failed (the `-2` path). -/
def dispatchLoop : List Bool → List Int → Option (Bool × List Eff)
  | [], _ => none
  | true :: _, _ => some (true, [Eff.prepareRead])
  | false :: _, [] => none
  | false :: ps, q :: qs =>
    if q < 0 then some (false, [Eff.prepareRead, Eff.dispatchPending])
    else
      match dispatchLoop ps qs with
      | none => none
      | some (b, tr) => some (b, Eff.prepareRead :: Eff.dispatchPending :: tr)

/-- Embeds `wayland_cgo_dispatch`.  Result `none` only when the oracle under-determines the
prepare loop; the C globals are not modified by dispatch, so only the result code and the
codec-call trace are returned. -/
def wayland_cgo_dispatch (env : DispatchEnv) (s : CState) : Option Int × List Eff :=
  match s.display with
  | none => (some (-1), [])
  | some _ =>
    match dispatchLoop env.prepareResults env.pendingResults with
    | none => (none, [])
    | some (false, tr) => (some (-2), tr)
    | some (true, tr) =>
      if env.readResult < 0 then (some (-3), tr ++ [Eff.readEvents, Eff.cancelRead])
      else if env.finalPendingResult < 0 then
        (some (-4), tr ++ [Eff.readEvents, Eff.dispatchPending])
      else (some 0, tr ++ [Eff.readEvents, Eff.dispatchPending])

/-- Embeds `wayland_cgo_get_fd`: `-1` when `display` is NULL, otherwise the value
`wl_display_get_fd` reports for the stored display pointer (modelled by `fdOf`). -/
def wayland_cgo_get_fd (fdOf : Nat → Int) (s : CState) : Int × List Eff :=
  match s.display with
  | none => (-1, [])
  | some d => (fdOf d, [Eff.getFd d])

/-- Embeds `wayland_cgo_cleanup`: destroy `notification`, `idle_notifier`, `registry`, then
disconnect `display`, each guarded against NULL and cleared after its call.  The `seat`
pointer is not touched by the source. -/
def wayland_cgo_cleanup (s : CState) : CState × List Eff :=
  let p1 : CState × List Eff :=
    match s.notification with
    | some n => ({ s with notification := none }, [Eff.destroy n])
    | none => (s, [])
  let p2 : CState × List Eff :=
    match p1.1.idle_notifier with
    | some n => ({ p1.1 with idle_notifier := none }, p1.2 ++ [Eff.destroy n])
    | none => p1
  let p3 : CState × List Eff :=
    match p2.1.registry with
    | some r => ({ p2.1 with registry := none }, p2.2 ++ [Eff.destroy r])
    | none => p2
  match p3.1.display with
  | some d => ({ p3.1 with display := none }, p3.2 ++ [Eff.disconnect d])
  | none => p3

/-- The two events `ext_idle_notification_v1` can deliver. -/
inductive WEvent where
  | idled
  | resumed
deriving DecidableEq, Repr

/-- The two zero-argument upstream callbacks (`goIdleCallback` / `goResumeCallback`). -/
inductive Callback where
  | onIdle
  | onResume
deriving DecidableEq, Repr

/-- Embeds `handle_idle`: the C listener for `idled` invokes `goIdleCallback()` once. -/
def handle_idle : List Callback := [Callback.onIdle]

/-- Embeds `handle_resume`: the C listener for `resumed` invokes `goResumeCallback()` once. -/
def handle_resume : List Callback := [Callback.onResume]

/-- The spec's Session `state` values. -/
inductive SessionState where
  | Uninitialized
  | Ready
  | Armed
  | Idle
  | Closed
deriving DecidableEq, Repr

/-- Modelled from the spec: the Session `state` field exists only in the spec's data
model (the C source keeps no such variable); per §4.3 an `idled` event sets it to `Idle`
and a `resumed` event sets it to `Armed`. -/
def specEventStep (_st : SessionState) (e : WEvent) : SessionState :=
  match e with
  | WEvent.idled => SessionState.Idle
  | WEvent.resumed => SessionState.Armed

/-- Deliver a wire-ordered list of notification events to the C listeners, as
`wl_display_dispatch_pending` does, threading the spec-level state: each event runs its
handler (which emits its callbacks) and takes the spec state transition. -/
def deliverEvents (st : SessionState) : List WEvent → SessionState × List Callback
  | [] => (st, [])
  | e :: es =>
    let cbs := match e with
      | WEvent.idled => handle_idle
      | WEvent.resumed => handle_resume
    let rest := deliverEvents (specEventStep st e) es
    (rest.1, cbs ++ rest.2)

/-- The callback the spec pairs with each wire event. -/
def evCallback : WEvent → Callback
  | WEvent.idled => Callback.onIdle
  | WEvent.resumed => Callback.onResume

/-- Modelled from the spec: the result of the step-1 `prepare_read` loop of §4.4 —
`some (some (-2))` when a `dispatch_pending` inside the loop fails, `some none` when
`prepare_read` succeeds and the drain proceeds to step 2, `none` when the oracle runs
out. -/
def spec_loop_result : List Bool → List Int → Option (Option Int)
  | [], _ => none
  | true :: _, _ => some none
  | false :: _, [] => none
  | false :: ps, q :: qs =>
    if q < 0 then some (some (-2)) else spec_loop_result ps qs

/-- Modelled from the spec: the return code §4.4 assigns to one `dispatch()` call —
`-1` when the session is not initialized; otherwise step 1's loop (`-2` on
`dispatch_pending` failure), step 2 `read_events` (`-3` on failure, after `cancel_read`),
step 3 the final `dispatch_pending` (`-4` on failure), then `0`. -/
def specDispatchResult (env : DispatchEnv) (initialized : Bool) : Option Int :=
  if initialized = false then some (-1)
  else
    match spec_loop_result env.prepareResults env.pendingResults with
    | none => none
    | some (some e) => some e
    | some none =>
      if env.readResult < 0 then some (-3)
      else if env.finalPendingResult < 0 then some (-4)
      else some 0

/-- Handles acquired in a trace via a bind or factory call (`wl_display_get_registry`,
`wl_registry_bind`, `get_idle_notification`), in order of acquisition. -/
def acquiredHandles (tr : List Eff) : List Nat :=
  tr.filterMap fun e =>
    match e with
    | Eff.getRegistry h => some h
    | Eff.bindGlobal _ h => some h
    | Eff.newNotification _ (some h) => some h
    | _ => none

/-- Handles released in a trace via a proxy destroy, in order of release. -/
def destroyedHandles (tr : List Eff) : List Nat :=
  tr.filterMap fun e =>
    match e with
    | Eff.destroy h => some h
    | _ => none

/-- Notification handles handed out by the `get_idle_notification` factory in a trace. -/
def notificationsCreated (tr : List Eff) : List Nat :=
  tr.filterMap fun e =>
    match e with
    | Eff.newNotification _ (some h) => some h
    | _ => none

/-- Does the compositor's initial burst advertise a global of this interface? -/
def advertises (iface : String) (gs : List Global) : Prop :=
  ∃ g ∈ gs, g.interface = iface

instance (iface : String) (gs : List Global) : Decidable (advertises iface gs) :=
  inferInstanceAs (Decidable (∃ g ∈ gs, g.interface = iface))

/-- The five-way §4.4 return-code characterisation of `init` that claim C2 asserts, at a
given codec environment and entry state. -/
def initCodesProp (env : InitEnv) (s : CState) : Prop :=
  ((wayland_cgo_init env s).1 = 0 ∨ (wayland_cgo_init env s).1 = -1 ∨
    (wayland_cgo_init env s).1 = -2 ∨ (wayland_cgo_init env s).1 = -3 ∨
    (wayland_cgo_init env s).1 = -4)
  ∧ ((wayland_cgo_init env s).1 = -1 ↔ env.connectRes = none)
  ∧ ((wayland_cgo_init env s).1 = -2 ↔ env.connectRes ≠ none ∧ env.getRegistryRes = none)
  ∧ ((wayland_cgo_init env s).1 = -3 ↔
      env.connectRes ≠ none ∧ env.getRegistryRes ≠ none ∧
      ¬ advertises ext_idle_notifier_v1_interface_name env.globals)
  ∧ ((wayland_cgo_init env s).1 = -4 ↔
      env.connectRes ≠ none ∧ env.getRegistryRes ≠ none ∧
      advertises ext_idle_notifier_v1_interface_name env.globals ∧
      ¬ advertises "wl_seat" env.globals)
  ∧ ((wayland_cgo_init env s).1 = 0 ↔
      env.connectRes ≠ none ∧ env.getRegistryRes ≠ none ∧
      advertises ext_idle_notifier_v1_interface_name env.globals ∧
      advertises "wl_seat" env.globals)

/-- The property claim C10 asserts of a run of `init`: every subsequent
`register_timeout`, whatever the factory would return and whatever the timeout, returns
`-1` leaving the state untouched and performing no codec call at all. -/
def registerAfterInitProp (env : InitEnv) (s : CState) : Prop :=
  ∀ (factoryRes : Option Nat) (ms : Nat),
    wayland_cgo_register_timeout factoryRes ms (wayland_cgo_init env s).2.1 =
      (-1, (wayland_cgo_init env s).2.1, [])

/-- Scenario 2 of §8: the compositor advertises only `wl_seat` (global name 5); binding
hands out proxy 105, the display connects as handle 1, the registry is handle 2. -/
def c3_env : InitEnv :=
  ⟨some 1, some 2, [⟨5, "wl_seat", 1⟩], fun n => n + 100⟩

/-- The run of `init` on `c3_env` from the all-NULL state. -/
def c3_run : Int × CState × List Eff :=
  wayland_cgo_init c3_env CState.initial

/-- A Ready-state session: display 1, registry 2, notifier 107, seat 105. -/
def c4_ready : CState :=
  ⟨some 1, some 2, some 107, some 105, none⟩

/-- First `register_timeout(100)` on the Ready session; the factory hands out 51. -/
def c4_r1 : Int × CState × List Eff :=
  wayland_cgo_register_timeout (some 51) 100 c4_ready

/-- Second `register_timeout(200)`; the factory hands out 52. -/
def c4_r2 : Int × CState × List Eff :=
  wayland_cgo_register_timeout (some 52) 200 c4_r1.2.1

/-- Scenario 1 of §8: the compositor advertises `wl_seat` (name 5, bound as 105) and
`ext_idle_notifier_v1` (name 7, bound as 107); display 1, registry 2. -/
def c5_env : InitEnv :=
  ⟨some 1, some 2, [⟨5, "wl_seat", 1⟩, ⟨7, "ext_idle_notifier_v1", 1⟩], fun n => n + 100⟩

/-- The successful run of `init` on `c5_env` from the all-NULL state. -/
def c5_run : Int × CState × List Eff :=
  wayland_cgo_init c5_env CState.initial

/-- The `cleanup` that follows the successful `c5_run`. -/
def c5_clean : CState × List Eff :=
  wayland_cgo_cleanup c5_run.2.1

/-- A fully populated session: display 1, registry 2, notifier 107, seat 105,
notification 51. -/
def c8_full : CState :=
  ⟨some 1, some 2, some 107, some 105, some 51⟩

/-- The `cleanup` of the fully populated session. -/
def c8_run : CState × List Eff :=
  wayland_cgo_cleanup c8_full

/-! ### Helper lemmas about the registry binder -/

theorem registry_handle_global_fields (bind : Nat → Nat) (s : CState) (g : Global) :
    (registry_handle_global bind s g).1.display = s.display ∧
    (registry_handle_global bind s g).1.registry = s.registry ∧
    (registry_handle_global bind s g).1.notification = s.notification := by
  unfold registry_handle_global
  split_ifs <;> exact ⟨rfl, rfl, rfl⟩

theorem registry_handle_global_idle_notifier_none (bind : Nat → Nat) (s : CState)
    (g : Global) :
    (registry_handle_global bind s g).1.idle_notifier = none ↔
      s.idle_notifier = none ∧ g.interface ≠ ext_idle_notifier_v1_interface_name := by
  unfold registry_handle_global
  split_ifs with h1 h2
  · simp [h1]
  · simpa using fun _ => h1
  · simpa using fun _ => h1

theorem registry_handle_global_seat_none (bind : Nat → Nat) (s : CState) (g : Global) :
    (registry_handle_global bind s g).1.seat = none ↔
      s.seat = none ∧ g.interface ≠ "wl_seat" := by
  unfold registry_handle_global
  split_ifs with h1 h2
  · have : g.interface ≠ "wl_seat" := by
      rw [h1]; decide
    simp [this]
  · simp [h2.1]
  · have : s.seat = none → g.interface ≠ "wl_seat" := by
      intro hs hif
      exact h2 ⟨hif, hs⟩
    constructor
    · intro hs
      exact ⟨hs, this hs⟩
    · intro hs
      exact hs.1

theorem processGlobals_display (bind : Nat → Nat) :
    ∀ (gs : List Global) (s : CState), (processGlobals bind s gs).1.display = s.display
  | [], _ => rfl
  | g :: gs, s => by
    simp only [processGlobals]
    rw [processGlobals_display bind gs]
    exact (registry_handle_global_fields bind s g).1

theorem processGlobals_registry (bind : Nat → Nat) :
    ∀ (gs : List Global) (s : CState), (processGlobals bind s gs).1.registry = s.registry
  | [], _ => rfl
  | g :: gs, s => by
    simp only [processGlobals]
    rw [processGlobals_registry bind gs]
    exact (registry_handle_global_fields bind s g).2.1

theorem processGlobals_notification (bind : Nat → Nat) :
    ∀ (gs : List Global) (s : CState),
      (processGlobals bind s gs).1.notification = s.notification
  | [], _ => rfl
  | g :: gs, s => by
    simp only [processGlobals]
    rw [processGlobals_notification bind gs]
    exact (registry_handle_global_fields bind s g).2.2

theorem processGlobals_idle_notifier_none (bind : Nat → Nat) :
    ∀ (gs : List Global) (s : CState),
      ((processGlobals bind s gs).1.idle_notifier = none ↔
        s.idle_notifier = none ∧ ¬ advertises ext_idle_notifier_v1_interface_name gs)
  | [], s => by
    simp [processGlobals, advertises]
  | g :: gs, s => by
    simp only [processGlobals]
    rw [processGlobals_idle_notifier_none bind gs,
      registry_handle_global_idle_notifier_none bind s g]
    simp only [advertises, List.exists_mem_cons_iff]
    aesop

theorem processGlobals_seat_none (bind : Nat → Nat) :
    ∀ (gs : List Global) (s : CState),
      ((processGlobals bind s gs).1.seat = none ↔
        s.seat = none ∧ ¬ advertises "wl_seat" gs)
  | [], s => by
    simp [processGlobals, advertises]
  | g :: gs, s => by
    simp only [processGlobals]
    rw [processGlobals_seat_none bind gs, registry_handle_global_seat_none bind s g]
    simp only [advertises, List.exists_mem_cons_iff]
    aesop

/-! ### Helper lemmas about the dispatch drain loop -/

theorem dispatchLoop_spec_result :
    ∀ (ps : List Bool) (qs : List Int),
      spec_loop_result ps qs =
        (dispatchLoop ps qs).map (fun r => if r.1 then none else some (-2))
  | [], _ => rfl
  | true :: _, _ => rfl
  | false :: _, [] => rfl
  | false :: ps, q :: qs => by
    simp only [dispatchLoop, spec_loop_result]
    split_ifs with h
    · rfl
    · rw [dispatchLoop_spec_result ps qs]
      cases dispatchLoop ps qs with
      | none => rfl
      | some r => rfl

theorem dispatchLoop_no_read_effects :
    ∀ (ps : List Bool) (qs : List Int) (b : Bool) (tr : List Eff),
      dispatchLoop ps qs = some (b, tr) →
        Eff.cancelRead ∉ tr ∧ Eff.readEvents ∉ tr
  | [], _, _, _ => by
    intro h
    simp [dispatchLoop] at h
  | true :: _, qs, b, tr => by
    intro h
    simp only [dispatchLoop, Option.some.injEq, Prod.mk.injEq] at h
    obtain ⟨rfl, rfl⟩ := h
    decide
  | false :: _, [], _, _ => by
    intro h
    simp [dispatchLoop] at h
  | false :: ps, q :: qs, b, tr => by
    intro h
    simp only [dispatchLoop] at h
    split_ifs at h with hq
    · simp only [Option.some.injEq, Prod.mk.injEq] at h
      obtain ⟨rfl, rfl⟩ := h
      decide
    · cases hl : dispatchLoop ps qs with
      | none =>
        rw [hl] at h
        simp at h
      | some r =>
        rw [hl] at h
        obtain ⟨b', tr'⟩ := r
        simp only [Option.some.injEq, Prod.mk.injEq] at h
        obtain ⟨rfl, rfl⟩ := h
        have ih := dispatchLoop_no_read_effects ps qs b' tr' hl
        simp only [List.mem_cons]
        constructor
        · intro hc
          rcases hc with hc | hc | hc
          · cases hc
          · cases hc
          · exact ih.1 hc
        · intro hc
          rcases hc with hc | hc | hc
          · cases hc
          · cases hc
          · exact ih.2 hc

/-! ### Claim theorems -/

/-- C1: for an initialized session, `dispatch` performs exactly the non-blocking
three-step drain of §4.4 — its return code coincides, for every codec oracle, with the
spec's step-1/2/3 description (`-2` for a failed `dispatch_pending` in the prepare loop,
`-3` after a failed `read_events` with `cancel_read` invoked, `-4` for a failed final
`dispatch_pending`, else `0`); `cancel_read` is invoked exactly on the `-3` path; and
with `display` NULL the call returns `-1` having performed no codec operation. -/
theorem C1_dispatch_drain (env : DispatchEnv) (s : CState) :
    (wayland_cgo_dispatch env s).1 = specDispatchResult env s.display.isSome
    ∧ wayland_cgo_dispatch env { s with display := none } = (some (-1), [])
    ∧ (Eff.cancelRead ∈ (wayland_cgo_dispatch env s).2 ↔
        (wayland_cgo_dispatch env s).1 = some (-3)) := by
  refine ⟨?_, rfl, ?_⟩
  · cases hd : s.display with
    | none => simp [wayland_cgo_dispatch, specDispatchResult, hd]
    | some d =>
      simp only [wayland_cgo_dispatch, specDispatchResult, hd, Option.isSome_some]
      rw [dispatchLoop_spec_result]
      cases hl : dispatchLoop env.prepareResults env.pendingResults with
      | none => simp
      | some r =>
        obtain ⟨b, tr⟩ := r
        cases b
        · simp
        · simp only [Option.map_some, if_true]
          split_ifs <;> simp_all
  · cases hd : s.display with
    | none =>
      simp [wayland_cgo_dispatch, hd]
    | some d =>
      cases hl : dispatchLoop env.prepareResults env.pendingResults with
      | none => simp [wayland_cgo_dispatch, hd, hl]
      | some r =>
        obtain ⟨b, tr⟩ := r
        have hno := dispatchLoop_no_read_effects _ _ _ _ hl
        cases b
        · simp only [wayland_cgo_dispatch, hd, hl]
          simp [hno.1]
        · simp only [wayland_cgo_dispatch, hd, hl]
          split_ifs with h1 h2
          · simp
          · simp [hno.1]
          · simp [hno.1]

/-- C2: from a fresh session (no notifier or seat bound yet), `init` returns exactly one
of the five codes `0`, `-1`, `-2`, `-3`, `-4`: `-1` iff the connection fails, `-2` iff
the registry cannot be obtained, `-3` iff global discovery did not advertise
`ext_idle_notifier_v1`, `-4` iff the extension was advertised but no seat was, and `0`
iff connection, registry, notifier and seat were all obtained. -/
theorem C2_init_codes (env : InitEnv) (s : CState)
    (hn : s.idle_notifier = none) (hs : s.seat = none) :
    initCodesProp env s := by
  unfold initCodesProp
  cases hc : env.connectRes with
  | none =>
    simp [wayland_cgo_init, hc]
  | some d =>
    cases hr : env.getRegistryRes with
    | none =>
      simp [wayland_cgo_init, hc, hr]
    | some r =>
      have hpn : (processGlobals env.bind
          { s with display := some d, registry := some r } env.globals).1.idle_notifier
            = none ↔ ¬ advertises ext_idle_notifier_v1_interface_name env.globals := by
        rw [processGlobals_idle_notifier_none]
        simp [hn]
      have hps : (processGlobals env.bind
          { s with display := some d, registry := some r } env.globals).1.seat
            = none ↔ ¬ advertises "wl_seat" env.globals := by
        rw [processGlobals_seat_none]
        simp [hs]
      simp only [wayland_cgo_init, hc, hr]
      split_ifs with h1 h2
      · rw [hpn] at h1
        simp [h1]
      · rw [hpn] at h1
        rw [hps] at h2
        simp [not_not.mp h1, h2]
      · rw [hpn] at h1
        rw [hps] at h2
        simp [not_not.mp h1, not_not.mp h2]

/-- Witness for C2: the happy-path compositor of §8 scenario 1 (seat global 5, notifier
global 7), starting from the all-NULL state. -/
theorem C2_init_codes_witness :
    CState.initial.idle_notifier = none ∧ CState.initial.seat = none ∧
    initCodesProp ⟨some 1, some 2, [⟨5, "wl_seat", 1⟩, ⟨7, "ext_idle_notifier_v1", 1⟩],
      fun n => n + 100⟩ CState.initial :=
  ⟨rfl, rfl, C2_init_codes _ _ rfl rfl⟩

theorem register_timeout_ms_irrelevant (factoryRes : Option Nat) (ms ms2 : Nat)
    (s : CState) :
    (wayland_cgo_register_timeout factoryRes ms s).1 =
      (wayland_cgo_register_timeout factoryRes ms2 s).1 := by
  unfold wayland_cgo_register_timeout
  split_ifs <;> cases factoryRes <;> rfl

/-- C6: `register_timeout` returns `-1` iff the notifier or the seat is NULL, `-2` iff
the prerequisites are present but the `get_idle_notification` factory returned no
object, and `0` otherwise; the timeout value itself never influences the result code
(in particular `0` and `UINT32_MAX` are accepted exactly when any other value is). -/
theorem C6_register_codes (factoryRes : Option Nat) (ms : Nat) (s : CState) :
    ((wayland_cgo_register_timeout factoryRes ms s).1 = -1 ↔
      s.idle_notifier = none ∨ s.seat = none)
    ∧ ((wayland_cgo_register_timeout factoryRes ms s).1 = -2 ↔
      ¬(s.idle_notifier = none ∨ s.seat = none) ∧ factoryRes = none)
    ∧ ((wayland_cgo_register_timeout factoryRes ms s).1 = 0 ↔
      ¬(s.idle_notifier = none ∨ s.seat = none) ∧ factoryRes ≠ none)
    ∧ (∀ ms2 : Nat, (wayland_cgo_register_timeout factoryRes ms2 s).1 =
        (wayland_cgo_register_timeout factoryRes ms s).1) := by
  refine ⟨?_, ?_, ?_, fun ms2 => register_timeout_ms_irrelevant factoryRes ms2 ms s⟩ <;>
    (unfold wayland_cgo_register_timeout
     split_ifs with h
     · simp [h]
     · cases factoryRes <;> simp [h])

theorem count_map_evCallback (es : List WEvent) :
    (es.map evCallback).count Callback.onIdle = es.count WEvent.idled ∧
    (es.map evCallback).count Callback.onResume = es.count WEvent.resumed := by
  induction es with
  | nil => simp
  | cons e es ih => cases e <;> simp [evCallback, List.count_cons, ih.1, ih.2]

/-- C7: delivering any wire-ordered sequence of notification events to the C listeners
invokes exactly one callback per event (`on_idle` for `idled`, `on_resume` for
`resumed`), in the order the events arrived, without reordering or coalescing; the
spec-level session state ends `Idle` after an `idled` and `Armed` after a `resumed`. -/
theorem C7_event_translation (st : SessionState) (evs : List WEvent) :
    (deliverEvents st evs).2 = evs.map evCallback
    ∧ (deliverEvents st evs).1 = evs.foldl specEventStep st
    ∧ (deliverEvents st evs).2.count Callback.onIdle = evs.count WEvent.idled
    ∧ (deliverEvents st evs).2.count Callback.onResume = evs.count WEvent.resumed := by
  induction evs generalizing st with
  | nil => simp [deliverEvents]
  | cons e es ih =>
    cases e <;>
      simp [deliverEvents, handle_idle, handle_resume, evCallback, specEventStep,
        ih, List.count_cons, count_map_evCallback]

theorem cleanup_state (s : CState) :
    (wayland_cgo_cleanup s).1 = ⟨none, none, none, s.seat, none⟩ := by
  obtain ⟨d, r, n, st, no⟩ := s
  cases d <;> cases r <;> cases n <;> cases no <;> rfl

/-- C9: after `cleanup` the session is inert — a second `cleanup` returns the same state
and performs no codec call (so nothing is destroyed twice), and any subsequent
`dispatch`, `fd` or `register_timeout` returns `-1` without a codec call and without
changing the state. -/
theorem C9_closed_inert (s : CState) :
    wayland_cgo_cleanup (wayland_cgo_cleanup s).1 = ((wayland_cgo_cleanup s).1, [])
    ∧ (∀ env : DispatchEnv,
        wayland_cgo_dispatch env (wayland_cgo_cleanup s).1 = (some (-1), []))
    ∧ (∀ fdOf : Nat → Int, wayland_cgo_get_fd fdOf (wayland_cgo_cleanup s).1 = (-1, []))
    ∧ (∀ (factoryRes : Option Nat) (ms : Nat),
        wayland_cgo_register_timeout factoryRes ms (wayland_cgo_cleanup s).1 =
          (-1, (wayland_cgo_cleanup s).1, [])) := by
  rw [cleanup_state s]
  exact ⟨rfl, fun _ => rfl, fun _ => rfl, fun _ _ => rfl⟩

theorem register_timeout_misuse (factoryRes : Option Nat) (ms : Nat) (s : CState)
    (h : s.idle_notifier = none ∨ s.seat = none) :
    wayland_cgo_register_timeout factoryRes ms s = (-1, s, []) := by
  unfold wayland_cgo_register_timeout
  rw [if_pos h]

/-- C10: after any failing run of `init` from a session with no stale notifier or seat,
`register_timeout` returns `-1` for every timeout value, leaving the state untouched and
performing no codec call (in particular neither the notification factory nor a
roundtrip), because every failure path leaves the notifier or the seat NULL. -/
theorem C10_register_after_failed_init (env : InitEnv) (s : CState)
    (h : s.idle_notifier = none ∨ s.seat = none)
    (hf : (wayland_cgo_init env s).1 ≠ 0) :
    registerAfterInitProp env s := by
  intro factoryRes ms
  apply register_timeout_misuse
  cases hc : env.connectRes with
  | none =>
    simpa [wayland_cgo_init, hc] using h
  | some d =>
    cases hr : env.getRegistryRes with
    | none =>
      simpa [wayland_cgo_init, hc, hr] using h
    | some r =>
      simp only [wayland_cgo_init, hc, hr]
      split_ifs with h1 h2
      · exact Or.inl h1
      · exact Or.inr h2
      · exfalso
        apply hf
        simp only [wayland_cgo_init, hc, hr]
        rw [if_neg h1, if_neg h2]

/-- Witness for C10: the compositor socket is absent (`wl_display_connect` fails), from
the all-NULL state; `init` returns `-1` and every `register_timeout` then misfires. -/
theorem C10_register_after_failed_init_witness :
    (CState.initial.idle_notifier = none ∨ CState.initial.seat = none)
    ∧ (wayland_cgo_init ⟨none, none, [], fun n => n⟩ CState.initial).1 ≠ 0
    ∧ registerAfterInitProp ⟨none, none, [], fun n => n⟩ CState.initial :=
  ⟨Or.inl rfl, by decide,
    C10_register_after_failed_init _ _ (Or.inl rfl) (by decide)⟩

/-- C3 exhibits a code bug: with the compositor of §8 scenario 2 (only `wl_seat`
advertised), `init` returns `-3` and does call `wl_display_disconnect`, but the `display`
pointer is not cleared, so a subsequent `fd()` does not return `-1` — it calls
`wl_display_get_fd` on the disconnected display (modelled as returning 7) and returns
that value. -/
theorem C3_fd_after_failed_init :
    c3_run.1 = -3
    ∧ Eff.disconnect 1 ∈ c3_run.2.2
    ∧ c3_run.2.1.display = some 1
    ∧ (wayland_cgo_get_fd (fun _ => 7) c3_run.2.1).1 = 7 := by
  decide

/-- C4 exhibits a code bug: two consecutive successful `register_timeout` calls create
two notification objects (handles 51 then 52) and destroy neither, so two live
notifications exist instead of the mandated one; the first handle is simply
overwritten. -/
theorem C4_second_register_leaks :
    c4_r1.1 = 0 ∧ c4_r2.1 = 0
    ∧ c4_r2.2.1.notification = some 52
    ∧ notificationsCreated (c4_r1.2.2 ++ c4_r2.2.2) = [51, 52]
    ∧ destroyedHandles (c4_r1.2.2 ++ c4_r2.2.2) = [] := by
  decide

/-- C5 exhibits a code bug: in the happy path (successful `init` then `cleanup`) the
handles acquired via factory/bind calls are registry 2, seat 105, notifier 107, but
`cleanup` destroys only 107 and 2 (in reverse creation order) before disconnecting — the
seat handle 105 is never released. -/
theorem C5_seat_never_released :
    c5_run.1 = 0
    ∧ acquiredHandles c5_run.2.2 = [2, 105, 107]
    ∧ c5_clean.2 = [Eff.destroy 107, Eff.destroy 2, Eff.disconnect 1]
    ∧ 105 ∈ acquiredHandles c5_run.2.2
    ∧ 105 ∉ destroyedHandles c5_clean.2 := by
  decide

/-- C8 exhibits a code bug: `cleanup` of a fully populated session destroys
notification 51, notifier 107, registry 2 and disconnects display 1, in that order and
with correct null guards (a partially populated session only destroys what exists), and
clears those four pointers — but the `seat` field is left set, not reset. -/
theorem C8_cleanup_order_and_reset :
    c8_run.2 = [Eff.destroy 51, Eff.destroy 107, Eff.destroy 2, Eff.disconnect 1]
    ∧ c8_run.1.display = none ∧ c8_run.1.registry = none
    ∧ c8_run.1.idle_notifier = none ∧ c8_run.1.notification = none
    ∧ c8_run.1.seat = some 105
    ∧ (wayland_cgo_cleanup ⟨some 1, some 2, none, none, none⟩).2 =
        [Eff.destroy 2, Eff.disconnect 1] := by
  decide

end SyscWalls
